import Mathlib

/-!
Shallow embedding of the weather application source file
weatherApp.py (a single-file PyQt program).  The UI-independent logic is
translated into pure Lean definitions: the string handling of
on_get_weather and show_suggestions, the location-format regular
expression, the fetch worker run method, the cache dictionary, and the
event handlers on_get_weather / on_weather_result / toggle_unit, viewed
as state transformers on the application state.  Theorems about these
definitions follow the definitions.
-/

/-- Characters Python treats as whitespace (used by str.strip and by the
regex class backslash-s), restricted to the ASCII and Latin-1 code
points this application handles. -/
def pyIsSpace (c : Char) : Bool :=
  c == ' ' || c == '\t' || c == '\n' || c == '\r' || c == '\x0b' ||
  c == '\x0c' || c == '\x1c' || c == '\x1d' || c == '\x1e' ||
  c == '\x1f' || c == '\x85' || c == '\xa0'

/-- Python str.lower restricted to ASCII and Latin-1 letters (the only
letters admitted by the location pattern); other characters are
returned unchanged. -/
def pyLowerChar (c : Char) : Char :=
  if 'A' ≤ c ∧ c ≤ 'Z' then Char.ofNat (c.toNat + 32)
  else if '\xc0' ≤ c ∧ c ≤ '\xde' ∧ c ≠ '\xd7' then Char.ofNat (c.toNat + 32)
  else c

/-- Python str.lower on a whole string. -/
def pyLower (s : String) : String := String.mk (s.toList.map pyLowerChar)

/-- Python str.strip(): remove leading and trailing whitespace. -/
def pyStrip (s : String) : String :=
  String.mk (((s.toList.dropWhile pyIsSpace).reverse.dropWhile pyIsSpace).reverse)

/-- Helper for pySplit: split a character list at every occurrence of the
separator, keeping empty pieces. -/
def splitCharsOn (sep : Char) : List Char → List Char → List String
  | acc, [] => [String.mk acc.reverse]
  | acc, c :: cs =>
      if c == sep then String.mk acc.reverse :: splitCharsOn sep [] cs
      else splitCharsOn sep (c :: acc) cs

/-- Python str.split(sep) for a one-character separator: splits on every
occurrence and keeps empty pieces, so the result is never empty. -/
def pySplit (s : String) (sep : Char) : List String :=
  splitCharsOn sep [] s.toList

/-- Python str.startswith. -/
def pyStartsWith (s pre : String) : Bool := List.isPrefixOf pre.toList s.toList

/-- JSON values as returned by response.json().  Numbers are modelled as
integers; the program only inspects structure and Python truthiness of
payloads. -/
inductive Json where
  | null
  | bool (b : Bool)
  | num (n : Int)
  | str (s : String)
  | arr (elems : List Json)
  | obj (fields : List (String × Json))

/-- Python truthiness of a JSON value: null, false, zero, the empty
string, the empty array and the empty object are falsy. -/
def Json.pyTruthy : Json → Bool
  | .null => false
  | .bool b => b
  | .num n => n != 0
  | .str s => !s.isEmpty
  | .arr elems => !elems.isEmpty
  | .obj fields => !fields.isEmpty

/-- Truthiness of the data argument of on_weather_result: the Python test
"not data" is true when data is None or a falsy payload. -/
def optTruthy : Option Json → Bool
  | none => false
  | some j => j.pyTruthy

/-- The apostrophe character (code point 39), one of the characters the
location pattern allows inside a name. -/
def apostropheChar : Char := Char.ofNat 39

/-- Uppercase ASCII letter, the class A-Z of the pattern. -/
def isUpperAZ (c : Char) : Bool := decide ('A' ≤ c) && decide (c ≤ 'Z')

/-- The character class of the name part of the location pattern at line
385: ASCII letters, the Latin-1 range from C0 to FF, whitespace, the
hyphen and the apostrophe. -/
def isNameChar (c : Char) : Bool :=
  isUpperAZ c || (decide ('a' ≤ c) && decide (c ≤ 'z')) ||
  (decide ('\xc0' ≤ c) && decide (c ≤ '\xff')) ||
  pyIsSpace c || c == '-' || c == apostropheChar

/-- Core of the location pattern: one or more name characters, a comma,
any amount of whitespace, then exactly two uppercase ASCII letters at
the end.  Since the comma is not a name character and no whitespace
character is an uppercase letter, the greedy regex semantics is this
deterministic scan. -/
def patternCore (cs : List Char) : Bool :=
  let name := cs.takeWhile isNameChar
  match cs.dropWhile isNameChar with
  | c :: rest =>
      !name.isEmpty && c == ',' &&
        (match rest.dropWhile pyIsSpace with
         | [u1, u2] => isUpperAZ u1 && isUpperAZ u2
         | _ => false)
  | [] => false

/-- Matching of the location pattern of line 385 against a whole string.
In Python the dollar anchor also matches just before a single trailing
newline, hence the second disjunct. -/
def locationPatternMatch (s : String) : Bool :=
  let cs := s.toList
  patternCore cs ||
    (match cs.getLast? with
     | some c => c == '\n' && patternCore cs.dropLast
     | none => false)

/-- The data of one WeatherWorker instance (lines 441-446). -/
structure WeatherWorker where
  city : String
  unit : String
  api_key : String
  index : Nat
deriving DecidableEq

/-- One finished-signal emission (city, data, error, index) as declared at
line 439 and emitted by run. -/
structure Emission where
  city : String
  data : Option Json
  error : Option String
  index : Nat

/-- The observable result of the single requests.get call of run: either a
response with a status code and a body (whose JSON parse may fail), or
a transport failure raised as an exception (timeout, DNS, reset). -/
inductive HttpResult where
  | response (status : Nat) (body : Except String Json)
  | failure (detail : String)

/-- The query parameters of the one GET request run builds at lines
450-455; run performs this request unconditionally, so one run is one
network call. -/
structure HttpRequest where
  q : String
  appid : String
  units : String
deriving DecidableEq

/-- The request a worker issues (lines 450-456). -/
def WeatherWorker.request (w : WeatherWorker) : HttpRequest :=
  ⟨w.city, w.api_key, w.unit⟩

/-- The requests issued by a list of dispatched workers, one each. -/
def batchRequests (ws : List WeatherWorker) : List HttpRequest :=
  ws.map WeatherWorker.request

/-- WeatherWorker.run (lines 448-466) given the result of its one network
call: the list of finished signals it emits.  Status 200 emits the
parsed body (or, if parsing raises, the exception); 404 emits the
not-found shape; any other status calls raise_for_status, which raises
only for statuses from 400 to 599 - for any other status nothing is
emitted at all; a transport failure is caught and emitted as an error. -/
def WeatherWorker.run (w : WeatherWorker) (r : HttpResult) : List Emission :=
  match r with
  | .response 200 (.ok j) => [⟨w.city, some j, none, w.index⟩]
  | .response 200 (.error e) => [⟨w.city, none, some e, w.index⟩]
  | .response 404 _ => [⟨w.city, none, none, w.index⟩]
  | .response st _ =>
      if 400 ≤ st ∧ st < 600 then [⟨w.city, none, some "HTTPError", w.index⟩]
      else []
  | .failure d => [⟨w.city, none, some d, w.index⟩]

/-- The cache dictionary self.cache initialised at line 189: a Python dict
from keys to JSON payloads, modelled as an insertion-ordered
association list. -/
abbrev WeatherCache := List ((String × String) × Json)

/-- Python dict assignment: replace the value in place if the key is
present, otherwise append the new binding. -/
def WeatherCache.put : WeatherCache → (String × String) → Json → WeatherCache
  | [], k, v => [(k, v)]
  | (k1, v1) :: rest, k, v =>
      if k1 = k then (k, v) :: rest else (k1, v1) :: WeatherCache.put rest k v

/-- Python dict.get: the value bound to the key, if any. -/
def WeatherCache.get : WeatherCache → (String × String) → Option Json
  | [], _ => none
  | (k1, v1) :: rest, k => if k1 = k then some v1 else WeatherCache.get rest k

/-- Dialog boxes the application can pop up. -/
inductive Msg where
  | inputError
  | invalidFormat (segment : String)
  | fetchError (city : String)
  | notFound (city : String)
  | noValid
deriving DecidableEq

/-- The mutable state of the WeatherApp object that the embedded handlers
touch: settings, the cache, the input field, the enabled flags of the
two buttons, the dispatched workers, the pending counter, the success
flag, the grid of displayed cards, and the dialogs shown so far. -/
@[ext] structure AppState where
  api_key : String
  unit : String
  unit_symbol : String
  toggle_text : String
  cache : WeatherCache
  input_text : String
  get_btn_enabled : Bool
  toggle_btn_enabled : Bool
  workers : List WeatherWorker
  pending_results : Int
  any_success : Bool
  grid : List (Nat × Json)
  messages : List Msg

/-- State right after init (lines 187-197) with the given API key, with
input_text the current content of the input field. -/
def initialState (key : String) (input : String) : AppState :=
  { api_key := key, unit := "metric", unit_symbol := "°C",
    toggle_text := "Switch to imperial", cache := [], input_text := input,
    get_btn_enabled := true, toggle_btn_enabled := true, workers := [],
    pending_results := 0, any_success := false, grid := [], messages := [] }

/-- Python enumerate starting at a given index. -/
def enumFromN : Nat → List α → List (Nat × α)
  | _, [] => []
  | n, a :: as => (n, a) :: enumFromN (n + 1) as

/-- Python enumerate(l). -/
def pyEnumerate (l : List α) : List (Nat × α) := enumFromN 0 l

/-- Line 364: the segments of the input, split on the semicolon, stripped,
empty segments discarded (the comprehension guard is Python truthiness
of the stripped string, that is non-emptiness). -/
def parsedCities (raw : String) : List String :=
  ((pySplit raw ';').map pyStrip).filter (fun c => !c.isEmpty)

/-- The worker built at line 396 for one (index, city) pair, from the
current unit and API key. -/
def mkWorker (u key : String) (p : Nat × String) : WeatherWorker :=
  ⟨p.2, u, key, p.1⟩

/-- The for-loop of on_get_weather (lines 384-409): each segment is first
checked against the location pattern; a failing segment pops the
invalid-format dialog, re-enables both buttons and returns at once
(segments already handled keep their dispatched workers); a passing
segment gets one worker appended and the pending counter incremented. -/
def dispatchLoop (s : AppState) : List (Nat × String) → AppState
  | [] => s
  | p :: rest =>
      if locationPatternMatch p.2 then
        dispatchLoop
          { s with workers := s.workers ++ [mkWorker s.unit s.api_key p],
                   pending_results := s.pending_results + 1 } rest
      else
        { s with messages := s.messages ++ [Msg.invalidFormat p.2],
                 get_btn_enabled := true, toggle_btn_enabled := true }

/-- on_get_weather (lines 363-409): parse the input field; an empty result
pops the input-error dialog and returns; otherwise disable both
buttons, clear the grid, reset workers, pending counter and success
flag, and run the dispatch loop over the enumerated segments. -/
def on_get_weather (s : AppState) : AppState :=
  let cities := parsedCities s.input_text
  if cities.isEmpty then
    { s with messages := s.messages ++ [Msg.inputError] }
  else
    dispatchLoop
      { s with get_btn_enabled := false, toggle_btn_enabled := false,
               grid := [], workers := [], pending_results := 0,
               any_success := false }
      (pyEnumerate cities)

/-- on_weather_result (lines 411-435): decrement the pending counter; an
error pops the fetch-error dialog, a missing or falsy payload pops the
not-found dialog, otherwise the success flag is set and a card is added
to the grid; when the counter reaches zero both buttons are re-enabled,
the no-valid dialog pops if nothing succeeded, and the worker list is
cleared. -/
def on_weather_result (s : AppState) (e : Emission) : AppState :=
  let s1 : AppState := { s with pending_results := s.pending_results - 1 }
  let s2 : AppState :=
    match e.error with
    | some _ => { s1 with messages := s1.messages ++ [Msg.fetchError e.city] }
    | none =>
        match e.data with
        | none => { s1 with messages := s1.messages ++ [Msg.notFound e.city] }
        | some d =>
            if d.pyTruthy then
              { s1 with any_success := true, grid := s1.grid ++ [(e.index, d)] }
            else
              { s1 with messages := s1.messages ++ [Msg.notFound e.city] }
  if s2.pending_results = 0 then
    let s3 := { s2 with get_btn_enabled := true, toggle_btn_enabled := true }
    let s4 := if !s3.any_success then
                { s3 with messages := s3.messages ++ [Msg.noValid] }
              else s3
    { s4 with workers := [] }
  else s2

/-- The settings flip of toggle_unit (lines 352-360). -/
def flipUnit (s : AppState) : AppState :=
  if s.unit = "metric" then
    { s with unit := "imperial", unit_symbol := "°F",
             toggle_text := "Switch to metric" }
  else
    { s with unit := "metric", unit_symbol := "°C",
             toggle_text := "Switch to imperial" }

/-- toggle_unit (lines 352-361): flip the unit, the symbol and the button
text, then immediately call on_get_weather. -/
def toggle_unit (s : AppState) : AppState := on_get_weather (flipUnit s)

/-- show_suggestions (lines 321-338), as the list of suggestions put into
the suggestion widget (the empty list when the widget is hidden): the
fragment is the text after the last semicolon, stripped and lowercased;
an empty fragment or an empty city list shows nothing; otherwise the
first ten cities whose lowercased form starts with the fragment. -/
def show_suggestions (text : String) (cities : List String) : List String :=
  let fragment := pyLower (pyStrip ((pySplit text ';').getLastD ""))
  if fragment = "" ∨ cities = [] then []
  else (cities.filter (fun c => pyStartsWith (pyLower c) fragment)).take 10

/-- User-interface events: the two button clicks (Qt delivers no clicked
signal for a disabled button, so those are no-ops), a worker finished
signal, and the user editing the input field. -/
inductive UiEvent where
  | clickGet
  | clickToggle
  | workerResult (e : Emission)
  | setInput (t : String)

/-- One step of the event-driven application. -/
def step (s : AppState) : UiEvent → AppState
  | .clickGet => if s.get_btn_enabled then on_get_weather s else s
  | .clickToggle => if s.toggle_btn_enabled then toggle_unit s else s
  | .workerResult e => on_weather_result s e
  | .setInput t => { s with input_text := t }

/-- Delivering a list of finished signals to on_weather_result in order. -/
def runBatch (s : AppState) (es : List Emission) : AppState :=
  es.foldl on_weather_result s

/-- The finished signals produced by a list of workers given each one's
network result. -/
def batchEvents (ws : List WeatherWorker) (rs : List HttpResult) : List Emission :=
  (List.zip ws rs).foldr (fun p acc => p.1.run p.2 ++ acc) []

/-- The per-item fetch outcome taxonomy of the specification. -/
inductive FetchOutcome where
  | success (payload : Json)
  | notFound
  | transportError (detail : String)

/-- The outcome is a success. -/
def FetchOutcome.isSuccess : FetchOutcome → Bool
  | .success _ => true
  | _ => false

/-- The outcome is a success whose payload is truthy in the Python sense. -/
def FetchOutcome.isTruthySuccess : FetchOutcome → Bool
  | .success j => j.pyTruthy
  | _ => false

/-- The finished-signal emission corresponding to a fetch outcome,
matching the three emit sites of WeatherWorker.run. -/
def FetchOutcome.toEmission (city : String) (idx : Nat) : FetchOutcome → Emission
  | .success j => ⟨city, some j, none, idx⟩
  | .notFound => ⟨city, none, none, idx⟩
  | .transportError d => ⟨city, none, some d, idx⟩

/-- An emission that on_weather_result counts as a success: no error and a
truthy payload. -/
def isSuccessEmission (e : Emission) : Bool := e.error.isNone && optTruthy e.data

/-! ## Helper lemmas -/

/-- The dispatch loop never touches the settings, the cache, the input
field or the success flag. -/
theorem dispatchLoop_preserves (l : List (Nat × String)) : ∀ s : AppState,
    (dispatchLoop s l).unit = s.unit ∧
    (dispatchLoop s l).unit_symbol = s.unit_symbol ∧
    (dispatchLoop s l).api_key = s.api_key ∧
    (dispatchLoop s l).cache = s.cache ∧
    (dispatchLoop s l).input_text = s.input_text ∧
    (dispatchLoop s l).any_success = s.any_success := by
  induction l with
  | nil => intro s; simp [dispatchLoop]
  | cons p rest ih =>
      intro s
      by_cases hp : locationPatternMatch p.2 = true
      · simp only [dispatchLoop, hp, if_true]
        simpa using ih _
      · have hp' : locationPatternMatch p.2 = false := by
          cases h : locationPatternMatch p.2 <;> simp_all
        simp [dispatchLoop, hp']

/-- When every enumerated segment passes the pattern, the dispatch loop
appends one worker per segment and adds the segment count to the
pending counter, touching nothing else. -/
theorem dispatchLoop_all_valid (l : List (Nat × String)) : ∀ s : AppState,
    (∀ p ∈ l, locationPatternMatch p.2 = true) →
    dispatchLoop s l =
      { s with workers := s.workers ++ l.map (mkWorker s.unit s.api_key),
               pending_results := s.pending_results + l.length } := by
  induction l with
  | nil => intro s _; simp [dispatchLoop]
  | cons p rest ih =>
      intro s h
      have hp : locationPatternMatch p.2 = true := h p (by simp)
      have hrest : ∀ q ∈ rest, locationPatternMatch q.2 = true := by
        intro q hq; exact h q (by simp [hq])
      simp only [dispatchLoop, hp, if_true]
      rw [ih _ hrest]
      simp [AppState.mk.injEq, Nat.cast_succ, add_assoc, add_comm, add_left_comm]

/-- When the list splits as valid segments, a failing segment, then a
tail, the dispatch loop dispatches exactly the valid prefix, then pops
the invalid-format dialog and re-enables both buttons. -/
theorem dispatchLoop_stops (p : Nat × String)
    (hbad : locationPatternMatch p.2 = false) :
    ∀ (good : List (Nat × String)) (rest : List (Nat × String)) (s : AppState),
      (∀ q ∈ good, locationPatternMatch q.2 = true) →
      dispatchLoop s (good ++ p :: rest) =
        { s with workers := s.workers ++ good.map (mkWorker s.unit s.api_key),
                 pending_results := s.pending_results + good.length,
                 get_btn_enabled := true, toggle_btn_enabled := true,
                 messages := s.messages ++ [Msg.invalidFormat p.2] } := by
  intro good
  induction good with
  | nil =>
      intro rest s _
      simp [dispatchLoop, hbad]
  | cons q good' ih =>
      intro rest s h
      have hq : locationPatternMatch q.2 = true := h q (by simp)
      have hgood' : ∀ r ∈ good', locationPatternMatch r.2 = true := by
        intro r hr; exact h r (by simp [hr])
      have hstep : dispatchLoop s ((q :: good') ++ p :: rest) =
          dispatchLoop
            { s with workers := s.workers ++ [mkWorker s.unit s.api_key q],
                     pending_results := s.pending_results + 1 }
            (good' ++ p :: rest) := by
        simp only [List.cons_append, dispatchLoop, hq, if_true, List.append_eq]
      rw [hstep, ih rest _ hgood']
      simp [AppState.mk.injEq, Nat.cast_succ, add_assoc, add_comm, add_left_comm]

/-- Every worker present after the dispatch loop was either present
before or was dispatched for one of the enumerated segments, with the
unit and key of the looping state. -/
theorem dispatchLoop_workers_from (l : List (Nat × String)) : ∀ s : AppState,
    ∀ w ∈ (dispatchLoop s l).workers,
      w ∈ s.workers ∨
        (w.unit = s.unit ∧ w.api_key = s.api_key ∧
          locationPatternMatch w.city = true ∧ ∃ i, (i, w.city) ∈ l) := by
  induction l with
  | nil => intro s w hw; exact Or.inl (by simpa [dispatchLoop] using hw)
  | cons p rest ih =>
      intro s w hw
      by_cases hp : locationPatternMatch p.2 = true
      · simp only [dispatchLoop, hp, if_true] at hw
        rcases ih _ w hw with h1 | h2
        · rcases List.mem_append.1 h1 with h3 | h4
          · exact Or.inl h3
          · refine Or.inr ?_
            have hw' : w = mkWorker s.unit s.api_key p := by simpa using h4
            subst hw'
            exact ⟨rfl, rfl, hp, p.1, by simp [mkWorker]⟩
        · refine Or.inr ⟨h2.1, h2.2.1, h2.2.2.1, ?_⟩
          obtain ⟨i, hi⟩ := h2.2.2.2
          exact ⟨i, by simp [hi]⟩
      · have hp' : locationPatternMatch p.2 = false := by
          cases h : locationPatternMatch p.2 <;> simp_all
        simp only [dispatchLoop, hp', Bool.false_eq_true, if_false] at hw
        exact Or.inl hw

/-- A pair in the enumeration has its second component in the list. -/
theorem snd_mem_of_mem_enumFromN :
    ∀ (n : Nat) (l : List α) (p : Nat × α), p ∈ enumFromN n l → p.2 ∈ l := by
  intro n l
  induction l generalizing n with
  | nil => intro p hp; simp [enumFromN] at hp
  | cons a as ih =>
      intro p hp
      simp only [enumFromN, List.mem_cons] at hp
      rcases hp with hp | hp
      · subst hp; simp
      · exact List.mem_cons_of_mem _ (ih _ _ hp)

/-- Enumerating preserves which elements satisfy a predicate on the
second component. -/
theorem enumFromN_all (f : α → Bool) :
    ∀ (n : Nat) (l : List α),
      (enumFromN n l).all (fun p => f p.2) = l.all f := by
  intro n l
  induction l generalizing n with
  | nil => simp [enumFromN]
  | cons a as ih => simp [enumFromN, ih]

/-- A false `all` yields a first failing element after the passing
prefix: the dropWhile part starts with an element refuting the
predicate. -/
theorem all_false_dropWhile (f : α → Bool) :
    ∀ l : List α, l.all f = false →
      ∃ a rest, l.dropWhile f = a :: rest ∧ f a = false := by
  intro l
  induction l with
  | nil => intro h; simp at h
  | cons a as ih =>
      intro h
      cases ha : f a with
      | false => exact ⟨a, as, by simp [List.dropWhile, ha], ha⟩
      | true =>
          have has : as.all f = false := by simpa [List.all_cons, ha] using h
          obtain ⟨b, rest, hb, hfb⟩ := ih has
          exact ⟨b, rest, by simp [List.dropWhile, ha, hb], hfb⟩

/-- on_get_weather never touches the settings or the cache. -/
theorem on_get_weather_preserves (s : AppState) :
    (on_get_weather s).unit = s.unit ∧
    (on_get_weather s).unit_symbol = s.unit_symbol ∧
    (on_get_weather s).api_key = s.api_key ∧
    (on_get_weather s).cache = s.cache ∧
    (on_get_weather s).input_text = s.input_text := by
  unfold on_get_weather
  by_cases h : (parsedCities s.input_text).isEmpty
  · simp [h]
  · simp only [h, Bool.false_eq_true, if_false]
    have := dispatchLoop_preserves (pyEnumerate (parsedCities s.input_text))
      { s with get_btn_enabled := false, toggle_btn_enabled := false,
               grid := [], workers := [], pending_results := 0,
               any_success := false }
    exact ⟨this.1, this.2.1, this.2.2.1, this.2.2.2.1, this.2.2.2.2.1⟩

/-- Field-level description of on_weather_result: the pending counter
always drops by one, settings and cache are untouched, and the buttons
are re-enabled exactly when the decremented counter is zero. -/
theorem on_weather_result_fields (s : AppState) (e : Emission) :
    (on_weather_result s e).pending_results = s.pending_results - 1 ∧
    (on_weather_result s e).unit = s.unit ∧
    (on_weather_result s e).unit_symbol = s.unit_symbol ∧
    (on_weather_result s e).cache = s.cache ∧
    (on_weather_result s e).input_text = s.input_text ∧
    (on_weather_result s e).get_btn_enabled =
      (if s.pending_results - 1 = 0 then true else s.get_btn_enabled) ∧
    (on_weather_result s e).toggle_btn_enabled =
      (if s.pending_results - 1 = 0 then true else s.toggle_btn_enabled) := by
  obtain ⟨c, d, err, i⟩ := e
  cases err <;> cases d <;>
    simp only [on_weather_result] <;>
    repeat' split <;> simp_all

/-- The success flag after one result event: it is set exactly by an
event with no error and a truthy payload, and is otherwise carried
over. -/
theorem on_weather_result_any_success (s : AppState) (e : Emission) :
    (on_weather_result s e).any_success =
      (s.any_success || isSuccessEmission e) := by
  obtain ⟨c, d, err, i⟩ := e
  cases err <;> cases d <;>
    simp only [on_weather_result, isSuccessEmission, optTruthy] <;>
    repeat' split <;> simp_all

/-- The success flag after a whole list of result events. -/
theorem runBatch_any_success (es : List Emission) : ∀ s : AppState,
    (runBatch s es).any_success = (s.any_success || es.any isSuccessEmission) := by
  induction es with
  | nil => intro s; simp [runBatch]
  | cons e es ih =>
      intro s
      have h1 : runBatch s (e :: es) = runBatch (on_weather_result s e) es := rfl
      rw [h1, ih, on_weather_result_any_success]
      simp [Bool.or_assoc]

/-- The cache is never written by any result event delivery. -/
theorem runBatch_cache (es : List Emission) : ∀ s : AppState,
    (runBatch s es).cache = s.cache := by
  induction es with
  | nil => intro s; rfl
  | cons e es ih =>
      intro s
      have h1 : runBatch s (e :: es) = runBatch (on_weather_result s e) es := rfl
      rw [h1, ih, (on_weather_result_fields s e).2.2.2.1]

/-- A successful lookup after a dict assignment of the same key. -/
theorem WeatherCache.get_put_same : ∀ (c : WeatherCache) (k : String × String)
    (v : Json), WeatherCache.get (WeatherCache.put c k v) k = some v := by
  intro c k v
  induction c with
  | nil => simp [WeatherCache.put, WeatherCache.get]
  | cons kv rest ih =>
      obtain ⟨k1, v1⟩ := kv
      by_cases h : k1 = k
      · simp [WeatherCache.put, WeatherCache.get, h]
      · simp [WeatherCache.put, WeatherCache.get, h, ih]

/-- A dict assignment of a different key does not change a lookup. -/
theorem WeatherCache.get_put_ne : ∀ (c : WeatherCache) (k k2 : String × String)
    (v : Json), k2 ≠ k →
      WeatherCache.get (WeatherCache.put c k2 v) k = WeatherCache.get c k := by
  intro c k k2 v hne
  induction c with
  | nil => simp [WeatherCache.put, WeatherCache.get, hne]
  | cons kv rest ih =>
      obtain ⟨k1, v1⟩ := kv
      by_cases h : k1 = k2
      · subst h
        simp [WeatherCache.put, WeatherCache.get, hne]
      · by_cases h2 : k1 = k
        · subst h2
          simp [WeatherCache.put, WeatherCache.get, h]
        · simp [WeatherCache.put, WeatherCache.get, h, h2, ih]

/-- The enumeration has the same length as the list. -/
theorem length_enumFromN : ∀ (n : Nat) (l : List α),
    (enumFromN n l).length = l.length := by
  intro n l
  induction l generalizing n with
  | nil => rfl
  | cons a as ih => simp [enumFromN, ih]

/-- Behaviour of on_get_weather when every parsed segment is valid:
either the parse is empty and only the input-error dialog pops, or one
worker per segment is dispatched, the counter is set to the segment
count, and both buttons stay disabled. -/
theorem on_get_weather_all_valid (s : AppState)
    (hGood : (parsedCities s.input_text).all locationPatternMatch = true) :
    (parsedCities s.input_text = [] ∧
      on_get_weather s = { s with messages := s.messages ++ [Msg.inputError] })
    ∨ (parsedCities s.input_text ≠ [] ∧
      on_get_weather s =
        { s with get_btn_enabled := false, toggle_btn_enabled := false,
                 grid := [], any_success := false,
                 workers := (pyEnumerate (parsedCities s.input_text)).map
                   (mkWorker s.unit s.api_key),
                 pending_results := ((parsedCities s.input_text).length : Int) }) := by
  by_cases h : parsedCities s.input_text = []
  · left
    refine ⟨h, ?_⟩
    unfold on_get_weather
    simp [h]
  · right
    refine ⟨h, ?_⟩
    have hempty : (parsedCities s.input_text).isEmpty = false := by
      simpa [List.isEmpty_iff] using h
    unfold on_get_weather
    simp only [hempty, Bool.false_eq_true, if_false]
    rw [dispatchLoop_all_valid]
    · simp [pyEnumerate, length_enumFromN]
    · intro p hp
      exact (List.all_eq_true.1 hGood) p.2 (snd_mem_of_mem_enumFromN 0 _ p hp)

/-- The settings flip changes nothing but the unit, the symbol and the
button text. -/
theorem flipUnit_fields (s : AppState) :
    (flipUnit s).input_text = s.input_text ∧
    (flipUnit s).pending_results = s.pending_results ∧
    (flipUnit s).get_btn_enabled = s.get_btn_enabled ∧
    (flipUnit s).toggle_btn_enabled = s.toggle_btn_enabled ∧
    (flipUnit s).workers = s.workers ∧
    (flipUnit s).api_key = s.api_key ∧
    (flipUnit s).cache = s.cache := by
  unfold flipUnit
  split <;> simp

/-- An emission built from an outcome counts as a success for the handler
exactly when the outcome is a success with a truthy payload. -/
theorem isSuccessEmission_toEmission (c : String) (i : Nat) (o : FetchOutcome) :
    isSuccessEmission (o.toEmission c i) = o.isTruthySuccess := by
  cases o <;>
    simp [FetchOutcome.toEmission, isSuccessEmission, optTruthy,
      FetchOutcome.isTruthySuccess]

/-- Folding dict assignments whose keys all differ from a key that is
absent leaves that key absent. -/
theorem WeatherCache.get_foldl_put_ne (k : String × String) :
    ∀ (ops : List ((String × String) × Json)) (d : WeatherCache),
      WeatherCache.get d k = none → (∀ p ∈ ops, p.1 ≠ k) →
      WeatherCache.get (ops.foldl (fun c p => WeatherCache.put c p.1 p.2) d) k
        = none := by
  intro ops
  induction ops with
  | nil => intro d hd _; simpa using hd
  | cons p ops ih =>
      intro d hd h
      have hp : p.1 ≠ k := h p (by simp)
      have hstep : WeatherCache.get (WeatherCache.put d p.1 p.2) k = none := by
        rw [WeatherCache.get_put_ne d k p.1 p.2 hp]; exact hd
      exact ih _ hstep (fun q hq => h q (by simp [hq]))

/-! ## Claim theorems -/

/-- Claim C1, counterexample: the claim says that when a segment fails
shape validation no worker is dispatched for any segment of the batch,
the valid segments preceding the bad one included.  In the code the
pattern check sits inside the dispatch loop, so on the input
consisting of a valid segment followed by an invalid one the worker for
the valid first segment is already dispatched (and its network fetch
proceeds) before the validation error is raised. -/
theorem C1_counterexample :
    (on_get_weather (initialState "k" "London,GB; x")).workers =
      [⟨"London,GB", "metric", "k", 0⟩]
    ∧ Msg.invalidFormat "x" ∈
        (on_get_weather (initialState "k" "London,GB; x")).messages := by
  constructor
  · decide
  · decide

/-- Claim C1, amended: if some parsed segment fails the pattern, the
invalid-format dialog pops for a failing segment, both buttons are
re-enabled at once, and the workers dispatched are exactly those for
the longest valid prefix of the segments (so segments preceding the
first bad one have already been dispatched; nothing at or after the
first bad segment is dispatched). -/
theorem C1_amended (s : AppState)
    (h : (parsedCities s.input_text).all locationPatternMatch = false) :
    (on_get_weather s).workers =
      ((pyEnumerate (parsedCities s.input_text)).takeWhile
        (fun p => locationPatternMatch p.2)).map (mkWorker s.unit s.api_key)
    ∧ (on_get_weather s).get_btn_enabled = true
    ∧ (on_get_weather s).toggle_btn_enabled = true
    ∧ ∃ bad, locationPatternMatch bad = false ∧
        Msg.invalidFormat bad ∈ (on_get_weather s).messages := by
  have hne : parsedCities s.input_text ≠ [] := by
    intro h0; rw [h0] at h; simp at h
  have hL : ((pyEnumerate (parsedCities s.input_text)).all
      (fun p => locationPatternMatch p.2)) = false := by
    rw [pyEnumerate, enumFromN_all]; exact h
  obtain ⟨bad, rest, hdrop, hbad⟩ :=
    all_false_dropWhile _ (pyEnumerate (parsedCities s.input_text)) hL
  have hsplit : ((pyEnumerate (parsedCities s.input_text)).takeWhile
        (fun p => locationPatternMatch p.2)) ++ bad :: rest =
      pyEnumerate (parsedCities s.input_text) := by
    conv_rhs => rw [← List.takeWhile_append_dropWhile
      (p := fun p => locationPatternMatch p.2)
      (l := pyEnumerate (parsedCities s.input_text))]
    rw [hdrop]
  have hgood : ∀ q ∈ (pyEnumerate (parsedCities s.input_text)).takeWhile
      (fun p => locationPatternMatch p.2), locationPatternMatch q.2 = true := by
    intro q hq
    have hq2 := List.mem_takeWhile_imp
      (p := fun r : Nat × String => locationPatternMatch r.2) hq
    simpa using hq2
  have hempty : (parsedCities s.input_text).isEmpty = false := by
    simpa [List.isEmpty_iff] using hne
  have hrun : on_get_weather s =
      dispatchLoop
        { s with get_btn_enabled := false, toggle_btn_enabled := false,
                 grid := [], workers := [], pending_results := 0,
                 any_success := false }
        (pyEnumerate (parsedCities s.input_text)) := by
    unfold on_get_weather
    simp only [hempty, Bool.false_eq_true, if_false]
  have hstops := dispatchLoop_stops bad hbad
    ((pyEnumerate (parsedCities s.input_text)).takeWhile
      (fun p => locationPatternMatch p.2))
    rest
    { s with get_btn_enabled := false, toggle_btn_enabled := false,
             grid := [], workers := [], pending_results := 0,
             any_success := false }
    hgood
  rw [hsplit] at hstops
  rw [hrun, hstops]
  refine ⟨by simp, rfl, rfl, bad.2, hbad, by simp⟩

/-- Claim C1, amended, witness at a concrete input with a valid first
segment and an invalid second one. -/
theorem C1_amended_witness :
    (on_get_weather (initialState "k" "Rome,IT; y")).workers =
      ((pyEnumerate (parsedCities "Rome,IT; y")).takeWhile
        (fun p => locationPatternMatch p.2)).map (mkWorker "metric" "k")
    ∧ (on_get_weather (initialState "k" "Rome,IT; y")).get_btn_enabled = true
    ∧ (on_get_weather (initialState "k" "Rome,IT; y")).toggle_btn_enabled = true
    ∧ ∃ bad, locationPatternMatch bad = false ∧
        Msg.invalidFormat bad ∈
          (on_get_weather (initialState "k" "Rome,IT; y")).messages :=
  C1_amended (initialState "k" "Rome,IT; y") (by decide)

/-- Claim C2 (code bug in the program): the claim says the worker
consults the cache first, short-circuits on a hit, and inserts the
payload on a 200 response.  In the code the dictionary self.cache is
initialised at line 189 and never referenced again: no handler ever
reads or writes it, every dispatched worker performs its one network
request even when the cache already holds the key, and a successful
response is not inserted.  Conjuncts: no event handler changes the
cache; and concretely, with a warm cache holding the key for London in
metric units, a batch for London still issues its network request and
a 200 response leaves the cache exactly as it was. -/
theorem C2_no_caching :
    (∀ (s : AppState) (e : Emission), (on_weather_result s e).cache = s.cache)
    ∧ (∀ s : AppState, (on_get_weather s).cache = s.cache)
    ∧ (∀ s : AppState, (toggle_unit s).cache = s.cache)
    ∧ batchRequests (on_get_weather
        { initialState "k" "London,GB" with
            cache := [(("london,gb", "metric"),
              Json.obj [("name", Json.str "London")])] }).workers
      = [⟨"London,GB", "k", "metric"⟩]
    ∧ (runBatch (on_get_weather
        { initialState "k" "London,GB" with
            cache := [(("london,gb", "metric"),
              Json.obj [("name", Json.str "London")])] })
        (batchEvents (on_get_weather
          { initialState "k" "London,GB" with
              cache := [(("london,gb", "metric"),
                Json.obj [("name", Json.str "London")])] }).workers
          [HttpResult.response 200
            (Except.ok (Json.obj [("name", Json.str "London")]))])).cache
      = [(("london,gb", "metric"), Json.obj [("name", Json.str "London")])] := by
  refine ⟨?_, ?_, ?_, rfl, rfl⟩
  · intro s e; exact (on_weather_result_fields s e).2.2.2.1
  · intro s; exact (on_get_weather_preserves s).2.2.2.1
  · intro s
    show (on_get_weather (flipUnit s)).cache = s.cache
    rw [(on_get_weather_preserves (flipUnit s)).2.2.2.1]
    exact (flipUnit_fields s).2.2.2.2.2.2

/-- Claim C3: the cache dictionary has map semantics: a lookup after an
assignment returns the assigned value, a second assignment to the same
key silently overwrites (last write wins), and a lookup of a key never
assigned - here, after any sequence of assignments all to other keys,
starting from the empty dict of line 189 - returns none. -/
theorem C3_cache_map_semantics :
    ∀ (c : WeatherCache) (k : String × String) (v v2 : Json),
      WeatherCache.get (WeatherCache.put c k v) k = some v
      ∧ WeatherCache.get
          (WeatherCache.put (WeatherCache.put c k v) k v2) k = some v2
      ∧ ∀ (ops : List ((String × String) × Json)),
          (∀ p ∈ ops, p.1 ≠ k) →
          WeatherCache.get
            (ops.foldl (fun d p => WeatherCache.put d p.1 p.2) []) k = none := by
  intro c k v v2
  refine ⟨WeatherCache.get_put_same c k v,
          WeatherCache.get_put_same (WeatherCache.put c k v) k v2, ?_⟩
  intro ops hops
  exact WeatherCache.get_foldl_put_ne k ops [] rfl hops

/-- Claim C3, witness at concrete keys and payloads. -/
theorem C3_witness :
    WeatherCache.get
      (WeatherCache.put [] ("london,gb", "metric") (Json.num 1))
      ("london,gb", "metric") = some (Json.num 1)
    ∧ WeatherCache.get
        ([((("rome,it" : String), ("metric" : String)), Json.num 2)].foldl
          (fun d p => WeatherCache.put d p.1 p.2) [])
        ("london,gb", "metric") = none :=
  ⟨(C3_cache_map_semantics [] ("london,gb", "metric") (Json.num 1) (Json.num 1)).1,
   (C3_cache_map_semantics [] ("london,gb", "metric") (Json.num 1) (Json.num 1)).2.2
     [((("rome,it" : String), ("metric" : String)), Json.num 2)] (by decide)⟩

/-- Claim C4, counterexample: the claim says the terminal event carries
anySucceeded true if and only if at least one outcome was a Success.
A Success outcome carrying the empty JSON object is a Success, yet the
handler tests the payload with Python truthiness (elif not data) and
treats it as not found: after the single-item batch completes, the
success flag is false and the terminal no-valid-results dialog pops. -/
theorem C4_counterexample :
    (FetchOutcome.success (Json.obj [])).isSuccess = true
    ∧ (runBatch (on_get_weather (initialState "k" "London,GB"))
        [(FetchOutcome.success (Json.obj [])).toEmission "London,GB" 0]).any_success
      = false
    ∧ Msg.noValid ∈ (runBatch (on_get_weather (initialState "k" "London,GB"))
        [(FetchOutcome.success (Json.obj [])).toEmission "London,GB" 0]).messages := by
  refine ⟨rfl, rfl, by decide⟩

/-- Claim C4, amended: after a batch of outcomes is delivered to a state
whose success flag has been reset (as on_get_weather does), the flag -
the value the terminal event reports - is true if and only if at least
one outcome was a Success whose payload is truthy in the Python sense;
a Success carrying an empty or otherwise falsy payload counts as not
found.  In particular a batch of only NotFound and TransportError
outcomes reports false. -/
theorem C4_amended (s : AppState) (outs : List (String × Nat × FetchOutcome))
    (h : s.any_success = false) :
    (runBatch s (outs.map (fun o => o.2.2.toEmission o.1 o.2.1))).any_success =
      outs.any (fun o => o.2.2.isTruthySuccess) := by
  rw [runBatch_any_success, h, Bool.false_or]
  induction outs with
  | nil => rfl
  | cons a l ih => simp [List.any_cons, ih, isSuccessEmission_toEmission]

/-- Claim C4, amended, witness: a one-item batch ending in NotFound
reports no success. -/
theorem C4_amended_witness :
    (runBatch (on_get_weather (initialState "k" "Rome,IT"))
      ([("Rome,IT", 0, FetchOutcome.notFound)].map
        (fun o => o.2.2.toEmission o.1 o.2.1))).any_success =
      [("Rome,IT", 0, FetchOutcome.notFound)].any
        (fun o => o.2.2.isTruthySuccess) :=
  C4_amended (on_get_weather (initialState "k" "Rome,IT"))
    [("Rome,IT", 0, FetchOutcome.notFound)] (by decide)

/-- Claim C5 (code bug in the program): the claim says a dispatched batch
of N queries always delivers exactly N item-result events, then one
terminal event that re-enables submission.  The worker run method emits
nothing when the response status is neither 200 nor 404 and
raise_for_status does not raise (any status from 201 to 399, here 204):
a dispatched one-query batch then produces zero item events instead of
one, the pending counter stays at one forever, the terminal re-enable
never happens and both buttons stay disabled. -/
theorem C5_missing_item_event :
    (on_get_weather (initialState "k" "London,GB")).workers.length = 1
    ∧ batchEvents (on_get_weather (initialState "k" "London,GB")).workers
        [HttpResult.response 204 (Except.ok (Json.obj []))] = ([] : List Emission)
    ∧ (runBatch (on_get_weather (initialState "k" "London,GB"))
        (batchEvents (on_get_weather (initialState "k" "London,GB")).workers
          [HttpResult.response 204 (Except.ok (Json.obj []))])).pending_results = 1
    ∧ (runBatch (on_get_weather (initialState "k" "London,GB"))
        (batchEvents (on_get_weather (initialState "k" "London,GB")).workers
          [HttpResult.response 204 (Except.ok (Json.obj []))])).get_btn_enabled
      = false
    ∧ (runBatch (on_get_weather (initialState "k" "London,GB"))
        (batchEvents (on_get_weather (initialState "k" "London,GB")).workers
          [HttpResult.response 204 (Except.ok (Json.obj []))])).toggle_btn_enabled
      = false := by
  refine ⟨by decide, rfl, by decide, by decide, by decide⟩

/-- Claim C6 (code bug in the program): the claim says every fetch
attempt produces exactly one outcome, with any status other than 200
and 404 yielding TransportError.  The run method emits exactly one
signal for 200 (Success with the parsed body), 404 (NotFound), statuses
400 to 599 and transport failures (both TransportError) - but for a
status such as 204 or 304 raise_for_status does not raise and run emits
nothing at all: zero outcomes instead of one TransportError. -/
theorem C6_missing_outcome :
    WeatherWorker.run ⟨"Paris, FR", "metric", "k", 0⟩
      (HttpResult.response 204 (Except.ok (Json.obj []))) = []
    ∧ WeatherWorker.run ⟨"Paris, FR", "metric", "k", 0⟩
        (HttpResult.response 304 (Except.error "not json")) = []
    ∧ WeatherWorker.run ⟨"Paris, FR", "metric", "k", 0⟩
        (HttpResult.response 200
          (Except.ok (Json.obj [("name", Json.str "Paris")])))
      = [⟨"Paris, FR", some (Json.obj [("name", Json.str "Paris")]), none, 0⟩]
    ∧ WeatherWorker.run ⟨"Paris, FR", "metric", "k", 0⟩
        (HttpResult.response 404 (Except.error "x")) = [⟨"Paris, FR", none, none, 0⟩]
    ∧ WeatherWorker.run ⟨"Paris, FR", "metric", "k", 0⟩
        (HttpResult.response 500 (Except.error "x"))
      = [⟨"Paris, FR", none, some "HTTPError", 0⟩]
    ∧ WeatherWorker.run ⟨"Paris, FR", "metric", "k", 0⟩
        (HttpResult.failure "timeout") = [⟨"Paris, FR", none, some "timeout", 0⟩] :=
  ⟨rfl, rfl, rfl, rfl, rfl, rfl⟩

/-- Claim C7: splitting the raw input on the semicolon, stripping
whitespace and discarding empty segments yields the batch: the entry
count equals the number of non-empty stripped tokens, order and
duplicates are preserved (the parse is a sublist of the stripped token
list), the pattern accepts "Paris, FR" and rejects "Paris,France", and
whenever on_get_weather dispatches from a non-empty parse every
dispatched worker carries a segment accepted by the pattern. -/
theorem C7_parse_contract (raw : String) (s : AppState) :
    (parsedCities raw).length =
      ((pySplit raw ';').map pyStrip).countP (fun t => !t.isEmpty)
    ∧ (parsedCities raw).Sublist ((pySplit raw ';').map pyStrip)
    ∧ locationPatternMatch "Paris, FR" = true
    ∧ locationPatternMatch "Paris,France" = false
    ∧ (parsedCities s.input_text ≠ [] →
        ∀ w ∈ (on_get_weather s).workers, locationPatternMatch w.city = true) := by
  refine ⟨?_, ?_, by decide, by decide, ?_⟩
  · rw [parsedCities, List.countP_eq_length_filter]
  · exact List.filter_sublist _
  · intro hne w hw
    have hempty : (parsedCities s.input_text).isEmpty = false := by
      simpa [List.isEmpty_iff] using hne
    have hrun : on_get_weather s =
        dispatchLoop
          { s with get_btn_enabled := false, toggle_btn_enabled := false,
                   grid := [], workers := [], pending_results := 0,
                   any_success := false }
          (pyEnumerate (parsedCities s.input_text)) := by
      unfold on_get_weather
      simp only [hempty, Bool.false_eq_true, if_false]
    rw [hrun] at hw
    rcases dispatchLoop_workers_from _ _ w hw with h1 | h2
    · simp at h1
    · exact h2.2.2.1

/-- Claim C7, witness at a two-segment input, with the last conjunct
applied to the first dispatched worker. -/
theorem C7_witness : locationPatternMatch "London,GB" = true :=
  (C7_parse_contract "London,GB; Rome,IT"
      (initialState "k" "London,GB; Rome,IT")).2.2.2.2
    (by decide) ⟨"London,GB", "metric", "k", 0⟩ (by decide)

/-- Claim C8: the suggestion computation returns at most ten entries,
keeps the original relative order of the candidate list (it is a
sublist), every returned candidate lowercased starts with the stripped
and lowercased trailing fragment, an empty fragment or an empty
candidate list yields the empty result, and otherwise the result is
exactly the first up-to-ten prefix matches.  The embedded function is
pure, so determinism and absence of state mutation hold by
construction. -/
theorem C8_suggestions (text : String) (cities : List String) :
    (show_suggestions text cities).length ≤ 10
    ∧ (show_suggestions text cities).Sublist cities
    ∧ (∀ c ∈ show_suggestions text cities,
        pyStartsWith (pyLower c)
          (pyLower (pyStrip ((pySplit text ';').getLastD ""))) = true)
    ∧ (pyLower (pyStrip ((pySplit text ';').getLastD "")) = "" →
        show_suggestions text cities = [])
    ∧ (cities = [] → show_suggestions text cities = [])
    ∧ (pyLower (pyStrip ((pySplit text ';').getLastD "")) ≠ "" → cities ≠ [] →
        show_suggestions text cities =
          (cities.filter (fun c => pyStartsWith (pyLower c)
            (pyLower (pyStrip ((pySplit text ';').getLastD ""))))).take 10) := by
  have hss : show_suggestions text cities =
      (if pyLower (pyStrip ((pySplit text ';').getLastD "")) = "" ∨ cities = []
       then []
       else (cities.filter (fun c => pyStartsWith (pyLower c)
         (pyLower (pyStrip ((pySplit text ';').getLastD ""))))).take 10) := rfl
  by_cases hcond :
      pyLower (pyStrip ((pySplit text ';').getLastD "")) = "" ∨ cities = []
  · rw [hss, if_pos hcond]
    refine ⟨by simp, by simp, by simp, fun _ => rfl, fun _ => rfl, ?_⟩
    intro h1 h2
    rcases hcond with hc | hc
    · exact absurd hc h1
    · exact absurd hc h2
  · rw [hss, if_neg hcond]
    push_neg at hcond
    refine ⟨List.length_take_le _ _,
      (List.take_sublist _ _).trans (List.filter_sublist _), ?_,
      fun h1 => absurd h1 hcond.1, fun h2 => absurd h2 hcond.2,
      fun _ _ => rfl⟩
    intro c hc
    have hc2 := List.mem_of_mem_take hc
    simpa using List.of_mem_filter hc2

/-- Claim C8, witness: with fragment lon, London is suggested and its
lowercased form starts with the fragment. -/
theorem C8_witness :
    pyStartsWith (pyLower "London,GB")
      (pyLower (pyStrip ((pySplit "lon" ';').getLastD ""))) = true :=
  (C8_suggestions "lon" ["London,GB", "Los Angeles,US", "Paris,FR"]).2.2.1
    "London,GB" (by decide)

/-- Claim C9: each toggle invocation flips the unit between metric and
imperial and sets the matching display symbol, then immediately runs a
batch fetch over the current input (toggle_unit is exactly
on_get_weather after the settings flip), and when the input parses to a
non-empty batch every worker dispatched by the toggle carries the new
unit and a segment of the current input. -/
theorem C9_toggle (s : AppState) :
    (s.unit = "metric" →
      (toggle_unit s).unit = "imperial" ∧ (toggle_unit s).unit_symbol = "°F")
    ∧ (s.unit ≠ "metric" →
      (toggle_unit s).unit = "metric" ∧ (toggle_unit s).unit_symbol = "°C")
    ∧ toggle_unit s = on_get_weather (flipUnit s)
    ∧ (parsedCities s.input_text ≠ [] →
        ∀ w ∈ (toggle_unit s).workers,
          w.unit = (toggle_unit s).unit ∧ w.city ∈ parsedCities s.input_text) := by
  have hpres := on_get_weather_preserves (flipUnit s)
  refine ⟨?_, ?_, rfl, ?_⟩
  · intro hm
    constructor
    · show (on_get_weather (flipUnit s)).unit = "imperial"
      rw [hpres.1]; simp [flipUnit, hm]
    · show (on_get_weather (flipUnit s)).unit_symbol = "°F"
      rw [hpres.2.1]; simp [flipUnit, hm]
  · intro hm
    constructor
    · show (on_get_weather (flipUnit s)).unit = "metric"
      rw [hpres.1]; simp [flipUnit, hm]
    · show (on_get_weather (flipUnit s)).unit_symbol = "°C"
      rw [hpres.2.1]; simp [flipUnit, hm]
  · intro hne w hw
    have hinput : (flipUnit s).input_text = s.input_text := (flipUnit_fields s).1
    have hempty : (parsedCities (flipUnit s).input_text).isEmpty = false := by
      rw [hinput]; simpa [List.isEmpty_iff] using hne
    have hrun : toggle_unit s =
        dispatchLoop
          { flipUnit s with
              get_btn_enabled := false, toggle_btn_enabled := false,
              grid := [], workers := [], pending_results := 0,
              any_success := false }
          (pyEnumerate (parsedCities (flipUnit s).input_text)) := by
      show on_get_weather (flipUnit s) = _
      unfold on_get_weather
      simp only [hempty, Bool.false_eq_true, if_false]
    rw [hrun] at hw
    rcases dispatchLoop_workers_from _ _ w hw with h1 | h2
    · simp at h1
    · constructor
      · exact h2.1.trans hpres.1.symm
      · obtain ⟨i, hi⟩ := h2.2.2.2
        have hmem := snd_mem_of_mem_enumFromN 0 _ (i, w.city) hi
        rwa [hinput] at hmem

/-- Claim C9, witness: toggling from the initial metric state flips the
unit to imperial and the dispatched worker carries the new unit. -/
theorem C9_witness :
    (toggle_unit (initialState "k" "London,GB")).unit = "imperial"
    ∧ (⟨"London,GB", "imperial", "k", 0⟩ : WeatherWorker).unit =
        (toggle_unit (initialState "k" "London,GB")).unit :=
  ⟨((C9_toggle (initialState "k" "London,GB")).1 rfl).1,
   (((C9_toggle (initialState "k" "London,GB")).2.2.2 (by decide)
      ⟨"London,GB", "imperial", "k", 0⟩ (by decide)).1)⟩

/-- Claim C10, counterexample: the claim says both controls stay disabled
until the pending-worker count reaches zero, hence the unit cannot
change while a batch's workers run.  On the input with a valid first
segment and an invalid second one, clicking the fetch button dispatches
the first worker (pending count one) and then the validation abort
re-enables both buttons, so a toggle click goes through and flips the
unit to imperial while the metric worker of the aborted batch is still
in flight. -/
theorem C10_counterexample :
    (step (initialState "k" "London,GB; x") UiEvent.clickGet).pending_results = 1
    ∧ (step (initialState "k" "London,GB; x") UiEvent.clickGet).workers =
        [⟨"London,GB", "metric", "k", 0⟩]
    ∧ (step (initialState "k" "London,GB; x") UiEvent.clickGet).toggle_btn_enabled
      = true
    ∧ (step (step (initialState "k" "London,GB; x") UiEvent.clickGet)
        UiEvent.clickToggle).unit = "imperial" := by
  refine ⟨by decide, by decide, by decide, by decide⟩

/-- Under an equal-flags state whose input parses all-valid, a fetch run
keeps the two button flags equal and keeps them disabled whenever the
pending count is positive. -/
theorem on_get_weather_good_case (s : AppState)
    (hEq : s.get_btn_enabled = s.toggle_btn_enabled)
    (hInv : s.pending_results > 0 → s.get_btn_enabled = false)
    (hGood : (parsedCities s.input_text).all locationPatternMatch = true) :
    ((on_get_weather s).get_btn_enabled = (on_get_weather s).toggle_btn_enabled)
    ∧ ((on_get_weather s).pending_results > 0 →
        (on_get_weather s).get_btn_enabled = false) := by
  rcases on_get_weather_all_valid s hGood with ⟨hnil, heq⟩ | ⟨hne, heq⟩
  · rw [heq]
    exact ⟨hEq, hInv⟩
  · rw [heq]
    exact ⟨rfl, fun _ => rfl⟩

/-- Claim C10, amended: as long as every submission happens on an input
whose parsed segments are all valid (so no validation abort occurs),
every event step preserves the invariant that the two button flags are
equal and that they are disabled while the pending count is positive,
and no event changes the unit system while the pending count is
positive.  The unamended claim fails only through the validation-abort
path exhibited by the counterexample. -/
theorem C10_amended (s : AppState) (ev : UiEvent)
    (hEq : s.get_btn_enabled = s.toggle_btn_enabled)
    (hInv : s.pending_results > 0 → s.get_btn_enabled = false)
    (hGood : (parsedCities s.input_text).all locationPatternMatch = true) :
    ((step s ev).get_btn_enabled = (step s ev).toggle_btn_enabled)
    ∧ ((step s ev).pending_results > 0 → (step s ev).get_btn_enabled = false)
    ∧ (s.pending_results > 0 → (step s ev).unit = s.unit) := by
  cases ev with
  | setInput t => exact ⟨hEq, hInv, fun _ => rfl⟩
  | workerResult e =>
      have hf := on_weather_result_fields s e
      refine ⟨?_, ?_, fun _ => hf.2.1⟩
      · show (on_weather_result s e).get_btn_enabled =
          (on_weather_result s e).toggle_btn_enabled
        rw [hf.2.2.2.2.2.1, hf.2.2.2.2.2.2, hEq]
      · intro hp
        have hp1 : (on_weather_result s e).pending_results > 0 := hp
        rw [hf.1] at hp1
        show (on_weather_result s e).get_btn_enabled = false
        rw [hf.2.2.2.2.2.1, if_neg (by omega)]
        exact hInv (by omega)
  | clickGet =>
      by_cases hg : s.get_btn_enabled = true
      · have hstep : step s UiEvent.clickGet = on_get_weather s := by
          simp [step, hg]
        have hcase := on_get_weather_good_case s hEq hInv hGood
        rw [hstep]
        exact ⟨hcase.1, hcase.2, fun _ => (on_get_weather_preserves s).1⟩
      · have hg2 : s.get_btn_enabled = false := by
          cases hb : s.get_btn_enabled
          · rfl
          · exact absurd hb hg
        have hstep : step s UiEvent.clickGet = s := by simp [step, hg2]
        rw [hstep]
        exact ⟨hEq, hInv, fun _ => rfl⟩
  | clickToggle =>
      by_cases ht : s.toggle_btn_enabled = true
      · have hstep : step s UiEvent.clickToggle = on_get_weather (flipUnit s) := by
          simp [step, ht, toggle_unit]
        have hEq2 : (flipUnit s).get_btn_enabled = (flipUnit s).toggle_btn_enabled := by
          rw [(flipUnit_fields s).2.2.1, (flipUnit_fields s).2.2.2.1]; exact hEq
        have hInv2 : (flipUnit s).pending_results > 0 →
            (flipUnit s).get_btn_enabled = false := by
          rw [(flipUnit_fields s).2.1, (flipUnit_fields s).2.2.1]; exact hInv
        have hGood2 : (parsedCities (flipUnit s).input_text).all
            locationPatternMatch = true := by
          rw [(flipUnit_fields s).1]; exact hGood
        have hcase := on_get_weather_good_case (flipUnit s) hEq2 hInv2 hGood2
        have hnp : ¬ s.pending_results > 0 := by
          intro hp
          have h1 := hInv hp
          rw [hEq] at h1
          rw [h1] at ht
          simp at ht
        rw [hstep]
        exact ⟨hcase.1, hcase.2, fun hp => absurd hp hnp⟩
      · have ht2 : s.toggle_btn_enabled = false := by
          cases hb : s.toggle_btn_enabled
          · rfl
          · exact absurd hb ht
        have hstep : step s UiEvent.clickToggle = s := by simp [step, ht2]
        rw [hstep]
        exact ⟨hEq, hInv, fun _ => rfl⟩

/-- Claim C10, amended, witness: one application at a state with a fully
valid in-flight batch (toggle click is a no-op, flags stay equal and
disabled, unit unchanged), and one at the idle initial state. -/
theorem C10_amended_witness :
    ((step (on_get_weather (initialState "k" "London,GB")) UiEvent.clickToggle).get_btn_enabled
      = (step (on_get_weather (initialState "k" "London,GB")) UiEvent.clickToggle).toggle_btn_enabled)
    ∧ (step (on_get_weather (initialState "k" "London,GB")) UiEvent.clickToggle).unit
      = (on_get_weather (initialState "k" "London,GB")).unit
    ∧ ((step (initialState "k" "London,GB") UiEvent.clickGet).get_btn_enabled
      = (step (initialState "k" "London,GB") UiEvent.clickGet).toggle_btn_enabled) :=
  ⟨(C10_amended (on_get_weather (initialState "k" "London,GB")) UiEvent.clickToggle
      (by decide) (by decide) (by decide)).1,
   (C10_amended (on_get_weather (initialState "k" "London,GB")) UiEvent.clickToggle
      (by decide) (by decide) (by decide)).2.2 (by decide),
   (C10_amended (initialState "k" "London,GB") UiEvent.clickGet
      (by decide) (by decide) (by decide)).1⟩
